import Mathlib

/-!
Verification of the response-normalization and fallback pipeline of the
MedGemma medical-document analysis backend.

The Python source under `backend/app` is shallowly embedded here:

* `services/ai_service.py` — `MedGemmaService`: the tiered inference dispatch
  (`analyze_for_doctor`, `explain_for_patient`), the legacy-backend call
  (`_call_legacy_ai_backend`), the legacy-schema remaps
  (`_normalize_legacy_doctor_payload`, `_normalize_legacy_patient_payload`),
  the mock payloads and the JSON-extraction helper (`_parse_json_response`).
* `routes/doctor.py` — parsing of the service result into typed models,
  `_sort_findings_by_urgency`, and the response construction.
* `routes/patient.py` — report-text resolution and response construction.
* `schemas/models.py` — `UrgencyLevel`, `KeyFinding`, `ScanInsight`,
  `DoctorAnalysisResponse`, `PatientExplainResponse`.

Python JSON-like values (`Dict[str, Any]` results of `json.loads`) are
modelled by the inductive `Json`.  The standard-library parser `json.loads`
is external to the repository and is treated as an abstract strict parser
`loads : String → Option Json` (`none` models a raised `JSONDecodeError`);
no theorem depends on its internals, only on success or failure.
Python exceptions escaping a modelled function are represented by `Option`
(`none` = the call raises); exceptions caught inside a function are folded
into its result exactly where the source catches them.
-/

/-- JSON-like Python values (`dict` / `list` / `str` / `int` / `bool` / `None`).
Numbers are modelled as integers; no claim involves fractional values. -/
inductive Json where
  | null : Json
  | bool (b : Bool) : Json
  | num (n : Int) : Json
  | str (s : String) : Json
  | arr (elems : List Json) : Json
  | obj (fields : List (String × Json)) : Json

/-- Python `dict.get(k)` on a JSON value: `none` both when the value is not a
dict and when the key is absent (parsed JSON dicts have unique keys). -/
def jsonGet (j : Json) (k : String) : Option Json :=
  match j with
  | .obj fields => fields.lookup k
  | _ => none

/-- Python truthiness of a JSON-like value (`bool(x)`). -/
def pyTruthy (j : Json) : Bool :=
  match j with
  | .null => false
  | .bool b => b
  | .num n => n != 0
  | .str s => s ≠ ""
  | .arr elems => !elems.isEmpty
  | .obj fields => !fields.isEmpty

/-- Python `str(x)` of a JSON-like value.  Lists and dicts render as a
bracketed repr; its exact text never matters in the source (it is only looked
up in a severity table whose keys are bare lowercase words), so a canonical
bracketed placeholder is used for those two cases. -/
def pyStr (j : Json) : String :=
  match j with
  | .null => "None"
  | .bool true => "True"
  | .bool false => "False"
  | .num n => toString n
  | .str s => s
  | .arr _ => "[...]"
  | .obj _ => "\x7b...\x7d"

/-- ASCII lowercasing of Python `str.lower()` (all strings compared against
the lowercase tables in the source are ASCII). -/
def pyLower (s : String) : String :=
  String.mk (s.toList.map Char.toLower)

/-- Python `str.strip()`: remove leading and trailing whitespace. -/
def pyStrip (s : String) : String :=
  String.mk (((s.toList.dropWhile Char.isWhitespace).reverse.dropWhile
    Char.isWhitespace).reverse)

-- ---------------------------------------------------------------------------
-- `_parse_json_response` (ai_service.py)
-- ---------------------------------------------------------------------------

/-- Backtick test, used for the markdown code-fence pattern. -/
def isBacktick (c : Char) : Bool :=
  c.toNat = 96

/-- One left-to-right pass of `re.sub(r"` + "```" + `(?:json)?", "", raw,
flags=IGNORECASE)`: every occurrence of three backticks, together with an
immediately following `json` (any case) if present, is deleted; scanning
resumes after the deleted span. -/
def stripFencesAux : Nat → List Char → List Char
  | 0, l => l
  | _, [] => []
  | fuel + 1, c :: cs =>
    if isBacktick c then
      match cs with
      | c2 :: c3 :: rest =>
        if isBacktick c2 && isBacktick c3 then
          match rest with
          | a :: b :: d :: e :: rest2 =>
            if a.toLower = 'j' && b.toLower = 's' && d.toLower = 'o' && e.toLower = 'n' then
              stripFencesAux fuel rest2
            else
              stripFencesAux fuel rest
          | _ => stripFencesAux fuel rest
        else
          c :: stripFencesAux fuel cs
      | _ => c :: stripFencesAux fuel cs
    else
      c :: stripFencesAux fuel cs

/-- `re.sub` of the code-fence pattern over a string.  The scan consumes at
least one character per step, so `raw.length` steps always complete it; the
fuel argument only serves structural recursion. -/
def stripCodeFences (raw : String) : String :=
  String.mk (stripFencesAux raw.toList.length raw.toList)

/-- Index of the first occurrence of `c` (Python `str.find`, `none` for -1). -/
def firstIdx (c : Char) : List Char → Option Nat
  | [] => none
  | x :: xs => if x = c then some 0 else (firstIdx c xs).map (· + 1)

/-- Index of the last occurrence of `c` (Python `str.rfind`, `none` for -1). -/
def lastIdx (c : Char) : List Char → Option Nat
  | [] => none
  | x :: xs =>
    match lastIdx c xs with
    | some i => some (i + 1)
    | none => if x = c then some 0 else none

/-- The cleaned character list `_parse_json_response` scans:
`re.sub(fence-pattern, "", raw).strip()`. -/
def cleanedChars (raw : String) : List Char :=
  (pyStrip (stripCodeFences raw)).toList

/-- The candidate JSON substring `cleaned[start:end]` with
`start = cleaned.find("` + `\x7b` + `")`, `end = cleaned.rfind("` + `\x7d` +
`") + 1`; `none` when either brace is absent (`start == -1 or end == 0`). -/
def jsonCandidate (raw : String) : Option String :=
  let cs := cleanedChars raw
  match firstIdx '\x7b' cs, lastIdx '\x7d' cs with
  | some s, some e => some (String.mk ((cs.drop s).take (e + 1 - s)))
  | _, _ => none

/-- `MedGemmaService._parse_json_response(raw, fallback)`: strip code fences,
locate the first `\x7b` and last `\x7d`, return `fallback` if either is
absent, otherwise strictly parse the enclosed substring with `loads`
(= `json.loads`; a raised `JSONDecodeError` is caught) and return `fallback`
on failure. -/
def parse_json_response (loads : String → Option Json) (raw : String) (fallback : Json) : Json :=
  match jsonCandidate raw with
  | none => fallback
  | some jsonStr =>
    match loads jsonStr with
    | some parsed => parsed
    | none => fallback

-- ---------------------------------------------------------------------------
-- Schemas (schemas/models.py)
-- ---------------------------------------------------------------------------

/-- `UrgencyLevel` — closed enumeration `high` / `medium` / `low`. -/
inductive UrgencyLevel where
  | high
  | medium
  | low
deriving DecidableEq

/-- `KeyFinding` pydantic model. -/
structure KeyFinding where
  finding : String
  detail : String
  urgency : UrgencyLevel
  source : String
deriving DecidableEq

/-- `ScanInsight` pydantic model (`region` is optional). -/
structure ScanInsight where
  observation : String
  region : Option String
  note : String
deriving DecidableEq

/-- `DoctorAnalysisResponse` pydantic model. -/
structure DoctorAnalysisResponse where
  patient_summary : String
  key_findings : List KeyFinding
  scan_insights : List ScanInsight
  urgency_ranking : List String
  disclaimer : String

/-- `PatientExplainResponse` pydantic model. -/
structure PatientExplainResponse where
  simplified_explanation : String
  disclaimer : String

/-- The fixed disclaimer attached by both routes. -/
def disclaimerText : String :=
  "This is an assistive tool and not a medical diagnosis."

-- ---------------------------------------------------------------------------
-- Mock payloads (ai_service.py `_mock_doctor_response`, `_mock_patient_response`)
-- ---------------------------------------------------------------------------

/-- `patient_summary` of `_mock_doctor_response`. -/
def mockDoctorSummary : String :=
  "[MOCK] This is a simulated summary. MedGemma is not loaded (running in mock mode). The patient\x27s uploaded records have been received and would normally be processed by the AI model."

/-- `MedGemmaService._mock_doctor_response()`. -/
def mock_doctor_response : Json :=
  .obj [
    ("patient_summary", .str mockDoctorSummary),
    ("key_findings", .arr [
      .obj [("finding", .str "[MOCK] Elevated Creatinine"),
            ("detail", .str "Lab report indicates possible renal stress markers."),
            ("urgency", .str "high"),
            ("source", .str "lab_report")],
      .obj [("finding", .str "[MOCK] Hypertension History"),
            ("detail", .str "Patient history notes long-standing hypertension."),
            ("urgency", .str "medium"),
            ("source", .str "patient_history")],
      .obj [("finding", .str "[MOCK] Routine Follow-up Due"),
            ("detail", .str "Annual cardiology review overdue by 3 months."),
            ("urgency", .str "low"),
            ("source", .str "prescription")]]),
    ("scan_insights", .arr [
      .obj [("observation", .str "[MOCK] Scan received and processed."),
            ("region", .str "Unknown (mock mode)"),
            ("note", .str "Real scan analysis requires GPU and loaded MedGemma model.")]]),
    ("urgency_ranking", .arr [
      .str "[MOCK] Elevated Creatinine",
      .str "[MOCK] Hypertension History",
      .str "[MOCK] Routine Follow-up Due"])]

/-- `simplified_explanation` of `_mock_patient_response`. -/
def mockPatientExplanation : String :=
  "[MOCK] This is a simulated explanation. When the AI model is fully loaded, it would turn your medical document into plain language that is easy to understand. Please note: this tool does not provide any medical diagnosis or advice."

/-- `MedGemmaService._mock_patient_response()`. -/
def mock_patient_response : Json :=
  .obj [("simplified_explanation", .str mockPatientExplanation)]

-- ---------------------------------------------------------------------------
-- Route-side parsing of the service result (routes/doctor.py step 4)
-- ---------------------------------------------------------------------------

/-- Pydantic validation of a `str` field: only a string is accepted. -/
def asStr : Json → Option String
  | .str s => some s
  | _ => none

/-- Pydantic validation of an `Optional[str]` field: absent or `None` is
accepted as `none`, a string as itself, anything else is rejected. -/
def asOptStr : Option Json → Option (Option String)
  | none => some none
  | some .null => some none
  | some (.str s) => some (some s)
  | some _ => none

/-- `UrgencyLevel(v)`: the enum constructor accepts exactly the three values
`"high"`, `"medium"`, `"low"` and raises `ValueError` (`none`) otherwise. -/
def parseUrgency : Json → Option UrgencyLevel
  | .str "high" => some .high
  | .str "medium" => some .medium
  | .str "low" => some .low
  | _ => none

/-- The Option-valued effect of running a Python list comprehension whose
body may raise: all elements must succeed, otherwise the whole run raises. -/
def optionMapM (f : α → Option β) : List α → Option (List β)
  | [] => some []
  | x :: xs => do
    let y ← f x
    let ys ← optionMapM f xs
    return y :: ys

/-- One element of the `key_findings` comprehension in
`analyze_patient_records`: `none` models a raised exception (non-dict
element, unrecognized urgency value, or a pydantic validation error). -/
def parseKeyFinding (j : Json) : Option KeyFinding :=
  match j with
  | .obj fields => do
    let finding ← asStr ((fields.lookup "finding").getD (.str "Unknown finding"))
    let detail ← asStr ((fields.lookup "detail").getD (.str ""))
    let urgency ← parseUrgency ((fields.lookup "urgency").getD (.str "low"))
    let source ← asStr ((fields.lookup "source").getD (.str "unknown"))
    return ⟨finding, detail, urgency, source⟩
  | _ => none

/-- The `key_findings` block of `analyze_patient_records`: the whole
comprehension runs inside one `try`, so any raised exception replaces the
entire list with `[]`.  A non-list `key_findings` value either raises when
iterated or yields non-dict items that raise, so it also ends at `[]`. -/
def parseKeyFindings (rawResult : Json) : List KeyFinding :=
  match jsonGet rawResult "key_findings" with
  | none => []
  | some (.arr xs) =>
    match optionMapM parseKeyFinding xs with
    | some findings => findings
    | none => []
  | some _ => []

/-- One element of the `scan_insights` comprehension. -/
def parseScanInsight (j : Json) : Option ScanInsight :=
  match j with
  | .obj fields => do
    let observation ← asStr ((fields.lookup "observation").getD (.str ""))
    let region ← asOptStr (fields.lookup "region")
    let note ← asStr ((fields.lookup "note").getD (.str ""))
    return ⟨observation, region, note⟩
  | _ => none

/-- The `scan_insights` block of `analyze_patient_records`, with the same
catch-all `try` semantics as the findings block. -/
def parseScanInsights (rawResult : Json) : List ScanInsight :=
  match jsonGet rawResult "scan_insights" with
  | none => []
  | some (.arr xs) =>
    match optionMapM parseScanInsight xs with
    | some insights => insights
    | none => []
  | some _ => []

-- ---------------------------------------------------------------------------
-- `_sort_findings_by_urgency` (routes/doctor.py)
-- ---------------------------------------------------------------------------

/-- `urgency_order = dict(HIGH 0, MEDIUM 1, LOW 2)`.  The source looks the key
up with default 99, but `UrgencyLevel` is a closed enumeration, so every
possible key is in the table and the default branch is unreachable here. -/
def urgencyOrderKey (u : UrgencyLevel) : Nat :=
  match u with
  | .high => 0
  | .medium => 1
  | .low => 2

/-- The comparison `sorted` performs under the key
`urgency_order.get(f.urgency, 99)`. -/
def findingLE (a b : KeyFinding) : Prop :=
  urgencyOrderKey a.urgency ≤ urgencyOrderKey b.urgency

instance : DecidableRel findingLE :=
  fun _ _ => Nat.decLe _ _

instance : IsTotal KeyFinding findingLE :=
  ⟨fun _ _ => Nat.le_total _ _⟩

instance : IsTrans KeyFinding findingLE :=
  ⟨fun _ _ _ hab hbc => Nat.le_trans hab hbc⟩

/-- `_sort_findings_by_urgency`: Python `sorted` is a stable ascending sort
by key, modelled by `List.insertionSort` on `key a ≤ key b`. -/
def sort_findings_by_urgency (findings : List KeyFinding) : List KeyFinding :=
  List.insertionSort findingLE findings

/-- `patient_summary` handling of the route response: the default string when
the key is absent; a pydantic validation error (`none`) on a non-string. -/
def routeSummary (rawResult : Json) : Option String :=
  match jsonGet rawResult "patient_summary" with
  | none => some "Summary could not be generated. Please review inputs."
  | some (.str s) => some s
  | some _ => none

/-- Steps 4–6 of `analyze_patient_records`: parse the service result, sort the
findings, derive `urgency_ranking`, and build `DoctorAnalysisResponse`.
`none` models a pydantic `ValidationError` escaping the handler. -/
def buildDoctorResponse (rawResult : Json) : Option DoctorAnalysisResponse :=
  let sorted := sort_findings_by_urgency (parseKeyFindings rawResult)
  (routeSummary rawResult).map (fun summary =>
    { patient_summary := summary
      key_findings := sorted
      scan_insights := parseScanInsights rawResult
      urgency_ranking := sorted.map (fun f => f.finding)
      disclaimer := disclaimerText })

-- ---------------------------------------------------------------------------
-- Legacy-schema remaps (ai_service.py)
-- ---------------------------------------------------------------------------

/-- Python `"sep".join(pieces)`. -/
def pyJoin (sep : String) : List String → String
  | [] => ""
  | [x] => x
  | x :: xs => x ++ sep ++ pyJoin sep xs

/-- `urgency_map.get(severity, "low")` with
`urgency_map = dict(critical high, high high, medium medium, low low)`. -/
def urgency_map_get (severity : String) : String :=
  if severity = "critical" then "high"
  else if severity = "high" then "high"
  else if severity = "medium" then "medium"
  else if severity = "low" then "low"
  else "low"

/-- Iterating a JSON-like Python value with `for`: a list yields its
elements, a string its characters, a dict its keys; anything else raises
`TypeError` (`none`). -/
def pyIterate (j : Json) : Option (List Json) :=
  match j with
  | .arr elems => some elems
  | .str s => some (s.toList.map (fun c => .str (String.mk [c])))
  | .obj fields => some (fields.map (fun p => Json.str p.1))
  | _ => none

/-- `legacy_data` extraction shared by both remaps:
`payload.get("data") if isinstance(payload, dict) else` empty dict, then
replaced by an empty dict unless it is a dict. -/
def legacyData (payload : Json) : Json :=
  match payload with
  | .obj fields =>
    match fields.lookup "data" with
    | some (.obj d) => .obj d
    | _ => .obj []
  | _ => .obj []

/-- One entry of the `findings` list built by
`_normalize_legacy_doctor_payload` from an abnormality dict `f`. -/
def legacy_finding (f : List (String × Json)) : Json :=
  .obj [
    ("finding", (f.lookup "issue").getD (.str "Unknown finding")),
    ("detail", (f.lookup "explanation").getD (.str "Derived from AI_Backend analysis.")),
    ("urgency", .str (urgency_map_get (pyLower (pyStr ((f.lookup "severity").getD (.str "low")))))),
    ("source", .str "legacy_ai_backend")]

/-- `legacy_data.get("abnormalities", [])` as an iterated sequence; `none`
models the `TypeError` raised when the stored value is not iterable. -/
def legacyAbnormalItems (data : Json) : Option (List Json) :=
  match jsonGet data "abnormalities" with
  | none => some []
  | some v => pyIterate v

/-- `rank_order.get(item.get("urgency", "low"), 99)` with
`rank_order = dict(high 0, medium 1, low 2)`.  Every finding built by the
remap stores one of the three mapped strings, so the 99 branch is
unreachable from the remap itself. -/
def legacyRankKey (item : Json) : Nat :=
  match jsonGet item "urgency" with
  | none => 2
  | some (.str u) =>
    if u = "high" then 0
    else if u = "medium" then 1
    else if u = "low" then 2
    else 99
  | some _ => 99

/-- The `patient_summary` selection of `_normalize_legacy_doctor_payload`:
`legacy_data.get("summary")`, replaced when falsy by
`payload.get("response") or` the mock summary.  `none` models the attribute
error of `payload.get` on a non-dict payload. -/
def legacyDoctorSummary (payload : Json) : Option Json :=
  let summaryRaw := (jsonGet (legacyData payload) "summary").getD .null
  if pyTruthy summaryRaw then some summaryRaw
  else
    match payload with
    | .obj _ =>
      let response := (jsonGet payload "response").getD .null
      some (if pyTruthy response then response else .str mockDoctorSummary)
    | _ => none

/-- The sorted findings list of `_normalize_legacy_doctor_payload`: non-dict
abnormality entries are skipped (`continue`), the rest are remapped and then
stably sorted ascending under `rank_order.get(urgency, 99)`. -/
def legacySortedFindings (items : List Json) : List Json :=
  List.insertionSort (fun a b => legacyRankKey a ≤ legacyRankKey b)
    (items.filterMap (fun j =>
      match j with
      | .obj f => some (legacy_finding f)
      | _ => none))

/-- `MedGemmaService._normalize_legacy_doctor_payload(payload)`.  `none`
models an exception escaping the remap (iterating a non-iterable
`abnormalities` value, or attribute access on a non-dict payload whose data
has no truthy summary). -/
def normalize_legacy_doctor_payload (payload : Json) : Option Json := do
  let items ← legacyAbnormalItems (legacyData payload)
  let sorted := legacySortedFindings items
  let summary ← legacyDoctorSummary payload
  return Json.obj [
    ("patient_summary", summary),
    ("key_findings", .arr sorted),
    ("scan_insights", .arr []),
    ("urgency_ranking", .arr (sorted.map (fun item => (jsonGet item "finding").getD .null)))]

/-- `str(legacy_data.get("summary") or "").strip()` of the patient remap. -/
def legacyPatientSummary (data : Json) : String :=
  pyStrip (pyStr (if pyTruthy ((jsonGet data "summary").getD .null) then
    (jsonGet data "summary").getD .null else .str ""))

/-- The string-typed recommendation entries, each stripped. -/
def legacyRecommendations (recItems : List Json) : List String :=
  recItems.filterMap (fun j =>
    match j with
    | .str s => some (pyStrip s)
    | _ => none)

/-- The `pieces` list of `_normalize_legacy_patient_payload`: the stripped
summary if non-empty, then the joined recommendation bullets if any. -/
def legacyPatientPieces (data : Json) (recItems : List Json) : List String :=
  (if legacyPatientSummary data ≠ "" then [legacyPatientSummary data] else []) ++
  (if legacyRecommendations recItems ≠ [] then
    ["Key next steps mentioned in your report: " ++ pyJoin "; " (legacyRecommendations recItems)]
  else [])

/-- `MedGemmaService._normalize_legacy_patient_payload(payload)`.  `none`
models the `TypeError` raised when `recommendations` is not iterable. -/
def normalize_legacy_patient_payload (payload : Json) : Option Json := do
  let data := legacyData payload
  let recItems ←
    match jsonGet data "recommendations" with
    | none => some []
    | some v => pyIterate v
  let pieces := legacyPatientPieces data recItems
  if pieces.isEmpty then
    return mock_patient_response
  else
    return Json.obj [("simplified_explanation", .str (pyJoin "\n\n" pieces))]

-- ---------------------------------------------------------------------------
-- `_call_legacy_ai_backend` and the tiered dispatch (ai_service.py)
-- ---------------------------------------------------------------------------

/-- Result of the one outbound HTTP call of `_call_legacy_ai_backend`:
a transport failure (`urllib.error.URLError`, which includes `HTTPError`),
a timeout (`TimeoutError`), an `http.client.HTTPException` escaping
`urlopen`/`read` without being wrapped in `URLError` (e.g. `BadStatusLine`,
`IncompleteRead`), or a completed round trip with the raw response body
BYTES — the source decodes them itself with `.decode("utf-8")`. -/
inductive LegacyOutcome where
  | urlError
  | timeoutErr
  | httpProtocolError
  | ok (body : List Nat)

/-- Strict UTF-8 decoding, as Python `bytes.decode("utf-8")` performs it:
rejects stray continuation bytes, invalid lead bytes, truncated sequences,
overlong encodings, surrogate code points and code points beyond U+10FFFF.
`none` models a raised `UnicodeDecodeError`.  Each step consumes at least
one byte, so fuel equal to the byte count always completes the scan; the
fuel argument only serves structural recursion. -/
def utf8DecodeAux : Nat → List Nat → Option (List Char)
  | _, [] => some []
  | 0, _ :: _ => none
  | fuel + 1, b :: bs =>
    if b ≤ 0x7F then
      (utf8DecodeAux fuel bs).map (fun cs => Char.ofNat b :: cs)
    else if 0xC2 ≤ b && b ≤ 0xDF then
      match bs with
      | c1 :: rest =>
        if 0x80 ≤ c1 && c1 ≤ 0xBF then
          (utf8DecodeAux fuel rest).map
            (fun cs => Char.ofNat ((b - 0xC0) * 64 + (c1 - 0x80)) :: cs)
        else none
      | [] => none
    else if 0xE0 ≤ b && b ≤ 0xEF then
      match bs with
      | c1 :: c2 :: rest =>
        if (if b = 0xE0 then 0xA0 ≤ c1 && c1 ≤ 0xBF
            else if b = 0xED then 0x80 ≤ c1 && c1 ≤ 0x9F
            else 0x80 ≤ c1 && c1 ≤ 0xBF) && (0x80 ≤ c2 && c2 ≤ 0xBF) then
          (utf8DecodeAux fuel rest).map
            (fun cs => Char.ofNat ((b - 0xE0) * 4096 + (c1 - 0x80) * 64 + (c2 - 0x80)) :: cs)
        else none
      | _ => none
    else if 0xF0 ≤ b && b ≤ 0xF4 then
      match bs with
      | c1 :: c2 :: c3 :: rest =>
        if (if b = 0xF0 then 0x90 ≤ c1 && c1 ≤ 0xBF
            else if b = 0xF4 then 0x80 ≤ c1 && c1 ≤ 0x8F
            else 0x80 ≤ c1 && c1 ≤ 0xBF) &&
            (0x80 ≤ c2 && c2 ≤ 0xBF) && (0x80 ≤ c3 && c3 ≤ 0xBF) then
          (utf8DecodeAux fuel rest).map
            (fun cs => Char.ofNat
              ((b - 0xF0) * 262144 + (c1 - 0x80) * 4096 + (c2 - 0x80) * 64 + (c3 - 0x80)) :: cs)
        else none
      | _ => none
    else none

/-- `response.read().decode("utf-8")` on a completed response body. -/
def utf8Decode (body : List Nat) : Option (List Char) :=
  utf8DecodeAux body.length body

/-- How `_call_legacy_ai_backend` ends: the no-result signal (returns
`None`, caller falls through), a parsed dict payload, or an exception
escaping the call to its caller — the `except` tuple catches only
`URLError`, `TimeoutError` and `json.JSONDecodeError`, so a
`UnicodeDecodeError` from the body decode and an `http.client` protocol
error both propagate. -/
inductive CallResult where
  | unavailable
  | payload (fields : List (String × Json))
  | raised

/-- `MedGemmaService._call_legacy_ai_backend`: `unavailable` when disabled,
on a caught transport error or timeout, on a caught `json.JSONDecodeError`
of the decoded body, or when the parsed JSON is not a dict; `payload` on a
parsed dict; `raised` when the body is not valid UTF-8 (uncaught
`UnicodeDecodeError`) or an HTTP protocol error escapes `urlopen`/`read`. -/
def call_legacy_ai_backend (enabled : Bool) (loads : String → Option Json)
    (outcome : LegacyOutcome) : CallResult :=
  if !enabled then .unavailable
  else
    match outcome with
    | .urlError => .unavailable
    | .timeoutErr => .unavailable
    | .httpProtocolError => .raised
    | .ok body =>
      match utf8Decode body with
      | none => .raised
      | some chars =>
        match loads (String.mk chars) with
        | none => .unavailable
        | some (.obj fields) => .payload fields
        | some _ => .unavailable

/-- Stand-in for the preprocessed PIL image object; its content never
influences the modelled control flow. -/
structure ScanImage where
  id : Nat
deriving DecidableEq

/-- `legacy_result["scan_insights"] = []` / `result["scan_insights"] = []`:
Python dict item assignment (both callers assign on dicts). -/
def setScanInsightsEmpty (j : Json) : Json :=
  match j with
  | .obj fields =>
    .obj (if (fields.lookup "scan_insights").isSome then
            fields.map (fun p => if p.1 = "scan_insights" then (p.1, Json.arr []) else p)
          else
            fields ++ [("scan_insights", Json.arr [])])
  | other => other

/-- `MedGemmaService.analyze_for_doctor`: legacy tier, then mock tier when
the model is not loaded (or mock is forced), then the local-model tier whose
raw output is normalized by `_parse_json_response` with the doctor mock as
fallback.  `rawModelOutput` is the text the deterministic generation pass
would produce for these inputs.  `none` models an exception escaping the
legacy remap. -/
def analyze_for_doctor (enabled forceMock modelLoaded : Bool)
    (loads : String → Option Json) (outcome : LegacyOutcome)
    (scanImage : Option ScanImage) (rawModelOutput : String) : Option Json :=
  match call_legacy_ai_backend enabled loads outcome with
  | .raised => none
  | .payload fields =>
    (normalize_legacy_doctor_payload (.obj fields)).map (fun legacyResult =>
      if scanImage.isNone then setScanInsightsEmpty legacyResult else legacyResult)
  | .unavailable =>
    if !modelLoaded || forceMock then
      some (if scanImage.isNone then setScanInsightsEmpty mock_doctor_response
            else mock_doctor_response)
    else
      some (parse_json_response loads rawModelOutput mock_doctor_response)

/-- `MedGemmaService.explain_for_patient`, with the same tier structure and
the patient mock as the parse fallback. -/
def explain_for_patient (enabled forceMock modelLoaded : Bool)
    (loads : String → Option Json) (outcome : LegacyOutcome)
    (rawModelOutput : String) : Option Json :=
  match call_legacy_ai_backend enabled loads outcome with
  | .raised => none
  | .payload fields => normalize_legacy_patient_payload (.obj fields)
  | .unavailable =>
    if !modelLoaded || forceMock then some mock_patient_response
    else some (parse_json_response loads rawModelOutput mock_patient_response)

-- ---------------------------------------------------------------------------
-- Route handlers (routes/doctor.py, routes/patient.py)
-- ---------------------------------------------------------------------------

/-- Outcome of a request handler: a response, an `HTTPException` with a
status code, or an uncaught exception (HTTP 500). -/
inductive RouteResult (α : Type) where
  | ok (value : α)
  | clientError (statusCode : Nat)
  | serverError

/-- Split a character list at newline characters. -/
def splitAtNewlines : List Char → List (List Char)
  | [] => [[]]
  | c :: cs =>
    if c = '\n' then [] :: splitAtNewlines cs
    else
      match splitAtNewlines cs with
      | line :: lines => (c :: line) :: lines
      | [] => [[c]]

/-- `clean_text` (services/preprocessing.py): split into lines, strip each,
drop the empty ones, rejoin with newlines.  Python `splitlines` also splits
on carriage returns and unicode line breaks; only `\n` is modelled, which is
exact on `\n`-separated text. -/
def clean_text (raw : String) : String :=
  pyJoin "\n" (((splitAtNewlines raw.toList).map (fun cs => pyStrip (String.mk cs))).filter
    (fun s => s != ""))

/-- The form-text branch shared by `_read_text_or_pdf` (doctor route) and
the `elif report_text:` branch of the patient route: a missing or empty
field resolves to `""`, a non-empty one to its cleaned text. -/
def resolveTextField (field : Option String) : String :=
  match field with
  | some t => if t ≠ "" then clean_text t else ""
  | none => ""

/-- The patient route truncation: `MAX_CHARS = 12_000`, with a marker line
appended when the resolved text is cut. -/
def truncateReport (s : String) : String :=
  if s.length > 12000 then
    String.mk (s.toList.take 12000) ++ "\n[...document truncated for processing]"
  else s

/-- The fixed message the patient route substitutes when the service result
has no `simplified_explanation` key. -/
def unableToExplainMessage : String :=
  "We were unable to generate an explanation for this document. Please try again or contact your healthcare provider."

/-- `explain_report` (routes/patient.py) on the form-text path: resolve the
report text, reject empty text with HTTP 422, truncate, call the service,
and build `PatientExplainResponse` with the fixed placeholder when the
`simplified_explanation` key is absent. -/
def explain_report (enabled forceMock modelLoaded : Bool)
    (loads : String → Option Json) (outcome : LegacyOutcome)
    (reportText : Option String) (rawModelOutput : String) :
    RouteResult PatientExplainResponse :=
  let resolved := resolveTextField reportText
  if resolved = "" then .clientError 422
  else
    match explain_for_patient enabled forceMock modelLoaded loads outcome rawModelOutput with
    | none => .serverError
    | some rawResult =>
      match jsonGet rawResult "simplified_explanation" with
      | none => .ok ⟨unableToExplainMessage, disclaimerText⟩
      | some (.str s) => .ok ⟨s, disclaimerText⟩
      | some _ => .serverError

/-- `analyze_patient_records` (routes/doctor.py) on the form-text path:
resolve the three text fields, reject when all are empty with HTTP 422,
call the service, and parse the result into `DoctorAnalysisResponse`. -/
def analyze_patient_records (enabled forceMock modelLoaded : Bool)
    (loads : String → Option Json) (outcome : LegacyOutcome)
    (patientHistoryText prescriptionsText labReportsText : Option String)
    (scanImage : Option ScanImage) (rawModelOutput : String) :
    RouteResult DoctorAnalysisResponse :=
  let patientHistory := resolveTextField patientHistoryText
  let prescriptions := resolveTextField prescriptionsText
  let labReports := resolveTextField labReportsText
  if patientHistory = "" && prescriptions = "" && labReports = "" then .clientError 422
  else
    match analyze_for_doctor enabled forceMock modelLoaded loads outcome scanImage rawModelOutput with
    | none => .serverError
    | some rawResult =>
      match buildDoctorResponse rawResult with
      | none => .serverError
      | some response => .ok response

/-- A sample legacy payload: one abnormality with issue `X` and severity
`critical`, and a data summary `S`. -/
def samplePayloadCritical : Json :=
  .obj [("data", .obj [
    ("abnormalities", .arr [.obj [("issue", .str "X"), ("severity", .str "critical")]]),
    ("summary", .str "S")])]

/-- What `_normalize_legacy_doctor_payload` produces for
`samplePayloadCritical`. -/
def sampleNormalizedCritical : Json :=
  .obj [
    ("patient_summary", .str "S"),
    ("key_findings", .arr [.obj [
      ("finding", .str "X"),
      ("detail", .str "Derived from AI_Backend analysis."),
      ("urgency", .str "high"),
      ("source", .str "legacy_ai_backend")]]),
    ("scan_insights", .arr []),
    ("urgency_ranking", .arr [.str "X"])]

/-- A strict parser witness for the empty JSON object: behaves like
`json.loads` on exactly the two-character document `\x7b\x7d` and fails on
every other input; only that document is ever handed to it below. -/
def loadsEmptyObject : String → Option Json := fun s =>
  if s = "\x7b\x7d" then some (.obj []) else none

/-- A strict parser witness for one concrete model output: it behaves like
`json.loads` on exactly the document `\x7b"simplified_explanation": ""\x7d`
(a JSON object with one key whose value is the empty string) and fails on
every other input; only that one document is ever handed to it below. -/
def loadsEmptyExplanation : String → Option Json := fun s =>
  if s = "\x7b\"simplified_explanation\": \"\"\x7d" then
    some (.obj [("simplified_explanation", .str "")])
  else none

/-- The backend output used to exercise an unrecognized urgency value:
finding `A` has urgency `high`, finding `B` the unmapped value `critical`. -/
def cexKeyFindingsRaw : Json :=
  .obj [("key_findings", .arr [
    .obj [("finding", .str "A"), ("urgency", .str "high")],
    .obj [("finding", .str "B"), ("urgency", .str "critical")]])]

/-- The witnessing response text for the patient counterexample. -/
def emptyExplanationRaw : String :=
  "\x7b\"simplified_explanation\": \"\"\x7d"

-- ===========================================================================
-- Theorems
-- ===========================================================================

-- Helper lemmas --------------------------------------------------------------

theorem firstIdx_eq_none_iff (c : Char) (cs : List Char) :
    firstIdx c cs = none ↔ c ∉ cs := by
  induction cs with
  | nil => simp [firstIdx]
  | cons x xs ih =>
    by_cases hx : x = c
    · simp [firstIdx, hx]
    · simp [firstIdx, hx, ih, Ne.symm hx]

theorem firstIdx_spec (c : Char) (cs : List Char) (i : Nat)
    (h : firstIdx c cs = some i) :
    i < cs.length ∧ cs.get? i = some c ∧ c ∉ cs.take i := by
  induction cs generalizing i with
  | nil => simp [firstIdx] at h
  | cons x xs ih =>
    by_cases hx : x = c
    · simp only [firstIdx, if_pos hx, Option.some.injEq] at h
      subst h
      simp [hx]
    · simp only [firstIdx, if_neg hx, Option.map_eq_some'] at h
      obtain ⟨i0, hi0, rfl⟩ := h
      obtain ⟨h1, h2, h3⟩ := ih i0 hi0
      refine ⟨by simpa using h1, by simpa using h2, ?_⟩
      simp [List.take_succ_cons, h3, Ne.symm hx]

theorem lastIdx_eq_none_iff (c : Char) (cs : List Char) :
    lastIdx c cs = none ↔ c ∉ cs := by
  induction cs with
  | nil => simp [lastIdx]
  | cons x xs ih =>
    by_cases hx : x = c <;> cases hlast : lastIdx c xs <;>
      simp_all [lastIdx, hx, Ne.symm, eq_comm]

theorem lastIdx_spec (c : Char) (cs : List Char) (j : Nat)
    (h : lastIdx c cs = some j) :
    j < cs.length ∧ cs.get? j = some c ∧ c ∉ cs.drop (j + 1) := by
  induction cs generalizing j with
  | nil => simp [lastIdx] at h
  | cons x xs ih =>
    cases hlast : lastIdx c xs with
    | some i =>
      simp only [lastIdx, hlast, Option.some.injEq] at h
      subst h
      obtain ⟨h1, h2, h3⟩ := ih i hlast
      exact ⟨by simpa using h1, by simpa using h2, by simpa using h3⟩
    | none =>
      by_cases hx : x = c
      · simp only [lastIdx, hlast, if_pos hx, Option.some.injEq] at h
        subst h
        refine ⟨by simp, by simp [hx], ?_⟩
        simpa using (lastIdx_eq_none_iff c xs).mp hlast
      · simp [lastIdx, hlast, hx] at h

theorem optionMapM_eq_none_of_mem {f : α → Option β} {xs : List α} {x : α}
    (hx : x ∈ xs) (hf : f x = none) : optionMapM f xs = none := by
  induction xs with
  | nil => cases hx
  | cons a as ih =>
    rcases List.mem_cons.mp hx with rfl | hmem
    · simp [optionMapM, hf]
    · cases ha : f a <;> simp [optionMapM, ha, ih hmem]

theorem string_append_eq_empty_iff (a b : String) : a ++ b = "" ↔ a = "" ∧ b = "" := by
  constructor
  · intro h
    have hd : a.data ++ b.data = [] := congrArg String.data h
    rcases List.append_eq_nil.mp hd with ⟨ha, hb⟩
    exact ⟨String.ext (by rw [ha]), String.ext (by rw [hb])⟩
  · rintro ⟨rfl, rfl⟩
    rfl

theorem pyJoin_ne_empty (sep x : String) (l : List String) (hx : x ≠ "") :
    pyJoin sep (x :: l) ≠ "" := by
  cases l with
  | nil => simpa [pyJoin] using hx
  | cons y ys =>
    simp only [pyJoin]
    intro h
    rw [string_append_eq_empty_iff] at h
    rw [string_append_eq_empty_iff] at h
    exact hx h.1.1

theorem filter_orderedInsert_pos {α : Type} (r : α → α → Prop) [DecidableRel r]
    (p : α → Bool) (x : α) (hx : p x = true) (h : ∀ y, p y = true → r x y) :
    ∀ l : List α, (l.orderedInsert r x).filter p = x :: l.filter p := by
  intro l
  induction l with
  | nil => simp [List.orderedInsert, hx]
  | cons b bs ih =>
    by_cases hrb : r x b
    · simp [List.orderedInsert, if_pos hrb, List.filter, hx]
    · have hpb : p b = false := by
        cases hpbv : p b with
        | true => exact absurd (h b hpbv) hrb
        | false => rfl
      simp [List.orderedInsert, if_neg hrb, List.filter, hpb, ih]

theorem filter_orderedInsert_neg {α : Type} (r : α → α → Prop) [DecidableRel r]
    (p : α → Bool) (x : α) (hx : p x = false) :
    ∀ l : List α, (l.orderedInsert r x).filter p = l.filter p := by
  intro l
  induction l with
  | nil => simp [List.orderedInsert, hx]
  | cons b bs ih =>
    by_cases hrb : r x b
    · simp [List.orderedInsert, if_pos hrb, List.filter, hx]
    · cases hpb : p b <;> simp [List.orderedInsert, if_neg hrb, List.filter, hpb, ih]

theorem filter_insertionSort {α : Type} (r : α → α → Prop) [DecidableRel r]
    (p : α → Bool) (h : ∀ x y, p x = true → p y = true → r x y) :
    ∀ l : List α, (l.insertionSort r).filter p = l.filter p := by
  intro l
  induction l with
  | nil => simp [List.insertionSort]
  | cons a as ih =>
    cases hpa : p a with
    | true =>
      rw [List.insertionSort, filter_orderedInsert_pos r p a hpa (fun y hy => h a y hpa hy), ih]
      simp [List.filter, hpa]
    | false =>
      rw [List.insertionSort, filter_orderedInsert_neg r p a hpa, ih]
      simp [List.filter, hpa]

theorem lookup_map_replace (k : String) (v : Json) (fields : List (String × Json)) :
    (fields.map (fun p => if p.1 = k then (p.1, v) else p)).lookup k =
      (fields.lookup k).map (fun _ => v) := by
  induction fields with
  | nil => simp
  | cons a as ih =>
    obtain ⟨ak, av⟩ := a
    by_cases hk : ak = k
    · subst hk
      rw [List.map_cons,
        show (if (ak, av).1 = ak then ((ak, av).1, v) else (ak, av)) = (ak, v) by simp]
      simp [List.lookup]
    · have hne : (k == ak) = false := by
        simpa [beq_iff_eq] using Ne.symm hk
      rw [List.map_cons,
        show (if (ak, av).1 = k then ((ak, av).1, v) else (ak, av)) = (ak, av) by simp [hk]]
      simp [List.lookup, hne, ih]

theorem jsonGet_setScanInsightsEmpty (j v : Json)
    (h : jsonGet j "scan_insights" = some v) :
    jsonGet (setScanInsightsEmpty j) "scan_insights" = some (.arr []) := by
  cases j with
  | obj fields =>
    simp only [jsonGet] at h
    have hs : (fields.lookup "scan_insights").isSome = true := by simp [h]
    simp [setScanInsightsEmpty, hs, jsonGet, lookup_map_replace, h]
  | null => simp [jsonGet] at h
  | bool b => simp [jsonGet] at h
  | num n => simp [jsonGet] at h
  | str s => simp [jsonGet] at h
  | arr elems => simp [jsonGet] at h

theorem parseKeyFinding_urgency_default (fields : List (String × Json)) (kf : KeyFinding)
    (hu : fields.lookup "urgency" = none)
    (h : parseKeyFinding (.obj fields) = some kf) : kf.urgency = .low := by
  simp only [parseKeyFinding, hu, Option.getD_none, bind, Option.bind_eq_some,
    parseUrgency, Option.some.injEq, pure] at h
  obtain ⟨f1, hf1, f2, hf2, u, hu2, s4, hs4, heq⟩ := h
  subst hu2
  cases heq
  rfl

theorem parseKeyFinding_none_of_badUrgency (fields : List (String × Json)) (v : Json)
    (hv : fields.lookup "urgency" = some v) (hp : parseUrgency v = none) :
    parseKeyFinding (.obj fields) = none := by
  cases h1 : asStr ((fields.lookup "finding").getD (.str "Unknown finding")) <;>
    cases h2 : asStr ((fields.lookup "detail").getD (.str "")) <;>
    simp [parseKeyFinding, hv, hp, h1, h2, bind]

-- Claim theorems -------------------------------------------------------------

/-- C4: every `DoctorAnalysisResult` constructed by the system — the route
response built by `analyze_patient_records` and the payload produced by
`_normalize_legacy_doctor_payload` alike — has `urgency_ranking` equal to
the list of finding titles of `key_findings`, in the same order. -/
theorem c4_urgency_ranking_mirrors_key_findings :
    (∀ rawResult resp, buildDoctorResponse rawResult = some resp →
      resp.urgency_ranking = resp.key_findings.map (fun f => f.finding)) ∧
    (∀ payload result, normalize_legacy_doctor_payload payload = some result →
      ∃ sorted : List Json,
        jsonGet result "key_findings" = some (.arr sorted) ∧
        jsonGet result "urgency_ranking" =
          some (.arr (sorted.map (fun item => (jsonGet item "finding").getD .null)))) := by
  constructor
  · intro rawResult resp h
    simp only [buildDoctorResponse, Option.map_eq_some'] at h
    obtain ⟨summary, hs, hresp⟩ := h
    subst hresp
    rfl
  · intro payload result h
    simp only [normalize_legacy_doctor_payload, bind, Option.bind_eq_some, pure,
      Option.some.injEq] at h
    obtain ⟨items, hitems, summary, hsummary, heq⟩ := h
    subst heq
    refine ⟨legacySortedFindings items, ?_, ?_⟩ <;> simp [jsonGet, List.lookup]

/-- C4 witness: the invariant evaluated on the mock doctor payload and on a
concrete legacy payload. -/
theorem c4_witness :
    (∃ resp, buildDoctorResponse mock_doctor_response = some resp ∧
      resp.urgency_ranking = resp.key_findings.map (fun f => f.finding)) ∧
    (∃ result, normalize_legacy_doctor_payload samplePayloadCritical = some result ∧
      ∃ sorted : List Json,
        jsonGet result "key_findings" = some (.arr sorted) ∧
        jsonGet result "urgency_ranking" =
          some (.arr (sorted.map (fun item => (jsonGet item "finding").getD .null)))) := by
  constructor
  · exact ⟨_, rfl, c4_urgency_ranking_mirrors_key_findings.1 mock_doctor_response _ rfl⟩
  · exact ⟨sampleNormalizedCritical, rfl,
      c4_urgency_ranking_mirrors_key_findings.2 samplePayloadCritical
        sampleNormalizedCritical rfl⟩

/-- C10: the doctor-path legacy remap returns a result whose `scan_insights`
list is unconditionally empty, and consequently every doctor analysis served
from the legacy tier — even with a scan image supplied — carries an empty
`scan_insights` list. -/
theorem c10_legacy_scan_insights_always_empty :
    (∀ payload result, normalize_legacy_doctor_payload payload = some result →
      jsonGet result "scan_insights" = some (.arr [])) ∧
    (∀ (enabled forceMock modelLoaded : Bool) loads outcome fields scanImage
        rawModelOutput result,
      call_legacy_ai_backend enabled loads outcome = .payload fields →
      analyze_for_doctor enabled forceMock modelLoaded loads outcome scanImage rawModelOutput =
        some result →
      jsonGet result "scan_insights" = some (.arr [])) := by
  have hnorm : ∀ payload result, normalize_legacy_doctor_payload payload = some result →
      jsonGet result "scan_insights" = some (.arr []) := by
    intro payload result h
    simp only [normalize_legacy_doctor_payload, bind, Option.bind_eq_some, pure,
      Option.some.injEq] at h
    obtain ⟨items, hitems, summary, hsummary, heq⟩ := h
    subst heq
    simp [jsonGet, List.lookup]
  refine ⟨hnorm, ?_⟩
  intro enabled forceMock modelLoaded loads outcome fields scanImage rawModelOutput result
    hcall hana
  simp only [analyze_for_doctor, hcall] at hana
  rw [Option.map_eq_some'] at hana
  obtain ⟨r, hr, hres⟩ := hana
  have hscan := hnorm _ _ hr
  subst hres
  by_cases hs : scanImage.isNone
  · simpa [hs] using jsonGet_setScanInsightsEmpty r _ hscan
  · simpa [hs] using hscan

/-- C10 witness: a legacy-served analysis with a scan image supplied still
has an empty `scan_insights` list. -/
theorem c10_witness :
    ∃ result,
      call_legacy_ai_backend true loadsEmptyObject (.ok [0x7b, 0x7d]) = .payload [] ∧
      analyze_for_doctor true false false loadsEmptyObject (.ok [0x7b, 0x7d])
        (some ⟨0⟩) "unused raw output" = some result ∧
      jsonGet result "scan_insights" = some (.arr []) := by
  refine ⟨.obj [
    ("patient_summary", .str mockDoctorSummary),
    ("key_findings", .arr []),
    ("scan_insights", .arr []),
    ("urgency_ranking", .arr [])], rfl, rfl, ?_⟩
  exact c10_legacy_scan_insights_always_empty.2 true false false
    loadsEmptyObject (.ok [0x7b, 0x7d]) [] (some ⟨0⟩) "unused raw output" _ rfl rfl

/-- C6: the legacy remap maps severity `critical`/`high` to urgency `high`,
`medium` to `medium`, `low` to `low`, and anything unrecognized to `low`,
and tags every resulting finding with the fixed source
`legacy_ai_backend`; in particular `abnormalities=[(issue X, severity
critical)]` yields a finding `X` with urgency `high` (parsed to
`UrgencyLevel.high` by the route), and severity `unknown-value` yields
urgency `low`. -/
theorem c6_legacy_severity_mapping :
    (∀ f : List (String × Json),
      jsonGet (legacy_finding f) "source" = some (.str "legacy_ai_backend")) ∧
    (∀ (f : List (String × Json)) (s : String), f.lookup "severity" = some (.str s) →
      jsonGet (legacy_finding f) "urgency" = some (.str (urgency_map_get (pyLower s)))) ∧
    (urgency_map_get "critical" = "high" ∧ urgency_map_get "high" = "high" ∧
      urgency_map_get "medium" = "medium" ∧ urgency_map_get "low" = "low") ∧
    (∀ s : String, s ≠ "critical" → s ≠ "high" → s ≠ "medium" → s ≠ "low" →
      urgency_map_get s = "low") ∧
    (normalize_legacy_doctor_payload samplePayloadCritical = some sampleNormalizedCritical ∧
      parseKeyFindings sampleNormalizedCritical =
        [⟨"X", "Derived from AI_Backend analysis.", .high, "legacy_ai_backend"⟩]) ∧
    jsonGet (legacy_finding [("issue", .str "Y"), ("severity", .str "unknown-value")])
      "urgency" = some (.str "low") := by
  refine ⟨?_, ?_, ⟨rfl, rfl, rfl, rfl⟩, ?_, ⟨rfl, rfl⟩, rfl⟩
  · intro f
    simp [legacy_finding, jsonGet, List.lookup]
  · intro f s h
    simp [legacy_finding, jsonGet, List.lookup, h, pyStr]
  · intro s h1 h2 h3 h4
    simp [urgency_map_get, h1, h2, h3, h4]

/-- C6 witness: the mapping applied to the concrete severities `critical`
and `unknown-value`. -/
theorem c6_witness :
    jsonGet (legacy_finding [("issue", .str "X"), ("severity", .str "critical")]) "urgency" =
      some (.str (urgency_map_get (pyLower "critical"))) ∧
    urgency_map_get "unknown-value" = "low" := by
  constructor
  · exact c6_legacy_severity_mapping.2.1 [("issue", .str "X"), ("severity", .str "critical")]
      "critical" rfl
  · exact c6_legacy_severity_mapping.2.2.2.1 "unknown-value"
      (by decide) (by decide) (by decide) (by decide)

/-- C7 counterexample: a response body that is not valid UTF-8 — hence a
non-JSON body — is NOT treated as unavailable: `bytes.decode("utf-8")`
raises `UnicodeDecodeError`, which the except tuple (`URLError`,
`TimeoutError`, `JSONDecodeError`) does not catch, so the call raises to
its caller and the exception propagates out of `analyze_for_doctor` instead
of falling through to the next tier. -/
theorem c7_counterexample :
    utf8Decode [0xFF] = none ∧
    call_legacy_ai_backend true (fun _ => none) (.ok [0xFF]) = .raised ∧
    call_legacy_ai_backend true (fun _ => none) (.ok [0xFF]) ≠ .unavailable ∧
    analyze_for_doctor true false true (fun _ => none) (.ok [0xFF]) none
      "unused raw output" = none := by
  refine ⟨rfl, rfl, ?_, rfl⟩
  intro h
  cases h

/-- C7 (as amended): a transport error, a timeout, a UTF-8 body that fails
strict JSON parsing, and a parsed body that is not a dict each make
`_call_legacy_ai_backend` return the no-result signal and the dispatch fall
through to the mock or local-model tier; but a body that is not valid
UTF-8, or an HTTP protocol error escaping `urlopen`/`read` unwrapped, is
outside the except tuple and raises through the call to its caller. -/
theorem c7_legacy_call_unavailable_falls_through :
    ∀ (enabled forceMock modelLoaded : Bool) (loads : String → Option Json)
      (outcome : LegacyOutcome) (scanImage : Option ScanImage) (rawModelOutput : String),
      ((outcome = .urlError ∨ outcome = .timeoutErr ∨
        (∃ body chars, outcome = .ok body ∧ utf8Decode body = some chars ∧
          (loads (String.mk chars) = none ∨
            ∃ v, loads (String.mk chars) = some v ∧ ∀ fields, v ≠ .obj fields))) →
        call_legacy_ai_backend enabled loads outcome = .unavailable ∧
        analyze_for_doctor enabled forceMock modelLoaded loads outcome scanImage
          rawModelOutput =
          some (if !modelLoaded || forceMock then
              (if scanImage.isNone then setScanInsightsEmpty mock_doctor_response
               else mock_doctor_response)
            else parse_json_response loads rawModelOutput mock_doctor_response)) ∧
      (enabled = true →
        (outcome = .httpProtocolError ∨ ∃ body, outcome = .ok body ∧ utf8Decode body = none) →
        call_legacy_ai_backend enabled loads outcome = .raised ∧
        analyze_for_doctor enabled forceMock modelLoaded loads outcome scanImage
          rawModelOutput = none) := by
  intro enabled forceMock modelLoaded loads outcome scanImage rawModelOutput
  constructor
  · intro h
    have hcall : call_legacy_ai_backend enabled loads outcome = .unavailable := by
      cases enabled with
      | false => rfl
      | true =>
        rcases h with rfl | rfl | ⟨body, chars, rfl, hdec, hbad⟩
        · rfl
        · rfl
        · rcases hbad with hnone | ⟨v, hv, hno⟩
          · simp [call_legacy_ai_backend, hdec, hnone]
          · cases v with
            | obj fields => exact absurd rfl (hno fields)
            | null => simp [call_legacy_ai_backend, hdec, hv]
            | bool b => simp [call_legacy_ai_backend, hdec, hv]
            | num n => simp [call_legacy_ai_backend, hdec, hv]
            | str s => simp [call_legacy_ai_backend, hdec, hv]
            | arr elems => simp [call_legacy_ai_backend, hdec, hv]
    refine ⟨hcall, ?_⟩
    simp only [analyze_for_doctor, hcall]
    cases hml : (!modelLoaded || forceMock) <;> simp [hml]
  · intro henabled h
    subst henabled
    have hcall : call_legacy_ai_backend true loads outcome = .raised := by
      rcases h with rfl | ⟨body, rfl, hdec⟩
      · rfl
      · simp [call_legacy_ai_backend, hdec]
    exact ⟨hcall, by simp only [analyze_for_doctor, hcall]⟩

/-- C7 witness: an ASCII body that fails strict JSON parsing is treated as
unavailable and the dispatch serves the mock tier; an invalid-UTF-8 body
makes the call and the dispatch raise. -/
theorem c7_witness :
    (call_legacy_ai_backend true (fun _ => none)
        (.ok ("plain text, not json".toList.map Char.toNat)) = .unavailable ∧
      analyze_for_doctor true false false (fun _ => none)
        (.ok ("plain text, not json".toList.map Char.toNat)) none "unused raw output" =
        some (setScanInsightsEmpty mock_doctor_response)) ∧
    (call_legacy_ai_backend true (fun _ => none) (.ok [0xC3, 0x28]) = .raised ∧
      analyze_for_doctor true false false (fun _ => none) (.ok [0xC3, 0x28]) none
        "unused raw output" = none) := by
  constructor
  · have h := (c7_legacy_call_unavailable_falls_through true false false (fun _ => none)
      (.ok ("plain text, not json".toList.map Char.toNat)) none "unused raw output").1
      (Or.inr (Or.inr ⟨"plain text, not json".toList.map Char.toNat,
        "plain text, not json".toList, rfl, rfl, Or.inl rfl⟩))
    exact ⟨h.1, h.2⟩
  · exact (c7_legacy_call_unavailable_falls_through true false false (fun _ => none)
      (.ok [0xC3, 0x28]) none "unused raw output").2 rfl
      (Or.inr ⟨[0xC3, 0x28], rfl, rfl⟩)

/-- C3: the direct-JSON path strips code-fence markers, then locates the
first opening brace and the last closing brace of the cleaned text (the
stated index specifications make first/last precise); if either is absent
the fallback is returned, otherwise the enclosed substring is strictly
parsed, the parsed value is returned verbatim on success and the fallback on
parse failure; the function is total and attempts no lenient repair. -/
theorem c3_parse_json_response_characterization :
    ∀ (loads : String → Option Json) (raw : String) (fallback : Json),
      (('\x7b' ∉ cleanedChars raw ∨ '\x7d' ∉ cleanedChars raw) →
        parse_json_response loads raw fallback = fallback) ∧
      (∀ i, firstIdx '\x7b' (cleanedChars raw) = some i →
        i < (cleanedChars raw).length ∧ (cleanedChars raw).get? i = some '\x7b' ∧
        '\x7b' ∉ (cleanedChars raw).take i) ∧
      (∀ j, lastIdx '\x7d' (cleanedChars raw) = some j →
        j < (cleanedChars raw).length ∧ (cleanedChars raw).get? j = some '\x7d' ∧
        '\x7d' ∉ (cleanedChars raw).drop (j + 1)) ∧
      (∀ i j, firstIdx '\x7b' (cleanedChars raw) = some i →
        lastIdx '\x7d' (cleanedChars raw) = some j →
        jsonCandidate raw = some (String.mk (((cleanedChars raw).drop i).take (j + 1 - i))) ∧
        (loads (String.mk (((cleanedChars raw).drop i).take (j + 1 - i))) = none →
          parse_json_response loads raw fallback = fallback) ∧
        (∀ v, loads (String.mk (((cleanedChars raw).drop i).take (j + 1 - i))) = some v →
          parse_json_response loads raw fallback = v)) := by
  intro loads raw fallback
  refine ⟨?_, fun i hi => firstIdx_spec _ _ _ hi, fun j hj => lastIdx_spec _ _ _ hj, ?_⟩
  · intro h
    have hcand : jsonCandidate raw = none := by
      simp only [jsonCandidate]
      rcases h with h | h
      · rw [(firstIdx_eq_none_iff _ _).mpr h]
      · rw [(lastIdx_eq_none_iff _ _).mpr h]
        cases firstIdx '\x7b' (cleanedChars raw) <;> rfl
    simp [parse_json_response, hcand]
  · intro i j hi hj
    have hcand : jsonCandidate raw =
        some (String.mk (((cleanedChars raw).drop i).take (j + 1 - i))) := by
      simp only [jsonCandidate]
      rw [hi, hj]
    refine ⟨hcand, ?_, ?_⟩
    · intro hn
      simp [parse_json_response, hcand, hn]
    · intro v hv
      simp [parse_json_response, hcand, hv]

/-- C3 witness: a brace-free output falls back; a braced output whose
extracted span fails strict parsing falls back as well. -/
theorem c3_witness :
    parse_json_response (fun _ => none) "The model refused to answer."
      mock_patient_response = mock_patient_response ∧
    parse_json_response (fun _ => none) "prose \x7b not json \x7d trailer"
      mock_patient_response = mock_patient_response := by
  constructor
  · exact (c3_parse_json_response_characterization (fun _ => none)
      "The model refused to answer." mock_patient_response).1 (Or.inl (by decide))
  · exact (((c3_parse_json_response_characterization (fun _ => none)
      "prose \x7b not json \x7d trailer" mock_patient_response).2.2.2 6 17 rfl rfl).2.1) rfl

/-- C5 counterexample: a backend output containing one finding with the
unrecognized urgency `critical` does not yield that finding treated as LOW —
the route replaces the entire parsed `key_findings` list with `[]` (dropping
the well-formed finding `A` too), so no finding at all survives. -/
theorem c5_counterexample :
    parseKeyFindings cexKeyFindingsRaw = [] ∧
    parseKeyFindings cexKeyFindingsRaw ≠
      [⟨"A", "", .high, "unknown"⟩, ⟨"B", "", .low, "unknown"⟩] := by
  refine ⟨rfl, ?_⟩
  decide

/-- C5 (as amended): `_sort_findings_by_urgency` is a stable sort — its
output is ordered HIGH before MEDIUM before LOW, is a permutation of its
input, and preserves the relative order of findings of equal urgency; a
finding whose urgency key is missing is parsed with urgency LOW; but a
finding carrying an unrecognized urgency value makes the route replace the
whole parsed `key_findings` list with `[]` (an exception is caught; nothing
is treated as LOW). -/
theorem c5_sort_stable_and_urgency_handling :
    (∀ l : List KeyFinding,
      List.Sorted findingLE (sort_findings_by_urgency l) ∧
      List.Perm (sort_findings_by_urgency l) l ∧
      ∀ u : UrgencyLevel,
        (sort_findings_by_urgency l).filter (fun f => f.urgency == u) =
          l.filter (fun f => f.urgency == u)) ∧
    (∀ (fields : List (String × Json)) (kf : KeyFinding),
      fields.lookup "urgency" = none →
      parseKeyFinding (.obj fields) = some kf → kf.urgency = .low) ∧
    (∀ (rawResult : Json) (xs : List Json) (fields : List (String × Json)) (v : Json),
      jsonGet rawResult "key_findings" = some (.arr xs) →
      Json.obj fields ∈ xs →
      fields.lookup "urgency" = some v →
      parseUrgency v = none →
      parseKeyFindings rawResult = []) := by
  refine ⟨?_, parseKeyFinding_urgency_default, ?_⟩
  · intro l
    refine ⟨List.sorted_insertionSort findingLE l, List.perm_insertionSort findingLE l, ?_⟩
    intro u
    apply filter_insertionSort
    intro x y hx hy
    have hxu : x.urgency = u := by simpa using hx
    have hyu : y.urgency = u := by simpa using hy
    show urgencyOrderKey x.urgency ≤ urgencyOrderKey y.urgency
    rw [hxu, hyu]
  · intro rawResult xs fields v h1 hmem hv hp
    have hel : parseKeyFinding (.obj fields) = none :=
      parseKeyFinding_none_of_badUrgency fields v hv hp
    have hmapM : optionMapM parseKeyFinding xs = none :=
      optionMapM_eq_none_of_mem hmem hel
    simp [parseKeyFindings, h1, hmapM]

/-- C5 witness: the amended behaviour evaluated on concrete inputs — a
mixed-urgency list is sorted HIGH, MEDIUM, LOW; a finding without an urgency
key parses as LOW; the unrecognized-urgency input empties the list. -/
theorem c5_witness :
    List.Sorted findingLE (sort_findings_by_urgency
      [⟨"a", "", .low, "s"⟩, ⟨"b", "", .high, "s"⟩, ⟨"c", "", .medium, "s"⟩]) ∧
    (∀ kf, parseKeyFinding (.obj [("finding", .str "A")]) = some kf → kf.urgency = .low) ∧
    parseKeyFindings cexKeyFindingsRaw = [] := by
  refine ⟨(c5_sort_stable_and_urgency_handling.1 _).1, ?_, ?_⟩
  · intro kf h
    exact c5_sort_stable_and_urgency_handling.2.1 [("finding", .str "A")] kf rfl h
  · exact c5_sort_stable_and_urgency_handling.2.2 cexKeyFindingsRaw
      [.obj [("finding", .str "A"), ("urgency", .str "high")],
       .obj [("finding", .str "B"), ("urgency", .str "critical")]]
      [("finding", .str "B"), ("urgency", .str "critical")] (.str "critical")
      rfl (by simp) rfl rfl

/-- C2 counterexample: on the doctor path, an output with no JSON span does
return the designated fallback — but that fallback carries THREE placeholder
findings, not an empty `key_findings` list as claimed. -/
theorem c2_counterexample :
    parse_json_response (fun _ => none) "The model refused to answer."
      mock_doctor_response = mock_doctor_response ∧
    (parseKeyFindings mock_doctor_response).length = 3 ∧
    parseKeyFindings mock_doctor_response ≠ [] := by
  refine ⟨rfl, rfl, ?_⟩
  intro h
  have : ([] : List KeyFinding).length = 3 := by rw [← h]; rfl
  cases this

/-- C2 (as amended): whenever structured extraction fails on a raw model
output (no brace span, or strict parsing of the span fails), normalization
returns the designated fallback payload and never raises; the doctor
fallback carries a `[MOCK]`-tagged placeholder summary and three
`[MOCK]`-tagged placeholder findings, and the patient fallback a fixed
`[MOCK]`-tagged placeholder explanation. -/
theorem c2_fallback_on_extraction_failure :
    ∀ (loads : String → Option Json) (raw : String),
      (jsonCandidate raw = none ∨ ∃ js, jsonCandidate raw = some js ∧ loads js = none) →
      parse_json_response loads raw mock_doctor_response = mock_doctor_response ∧
      parse_json_response loads raw mock_patient_response = mock_patient_response ∧
      "[MOCK]".toList.isPrefixOf mockDoctorSummary.toList = true ∧
      (parseKeyFindings mock_doctor_response).length = 3 ∧
      (∀ kf ∈ parseKeyFindings mock_doctor_response,
        "[MOCK]".toList.isPrefixOf kf.finding.toList = true) ∧
      jsonGet mock_patient_response "simplified_explanation" =
        some (.str mockPatientExplanation) ∧
      "[MOCK]".toList.isPrefixOf mockPatientExplanation.toList = true := by
  intro loads raw h
  have hfb : ∀ fb, parse_json_response loads raw fb = fb := by
    intro fb
    rcases h with hc | ⟨js, hjs, hn⟩
    · simp [parse_json_response, hc]
    · simp [parse_json_response, hjs, hn]
  refine ⟨hfb _, hfb _, rfl, rfl, ?_, rfl, rfl⟩
  intro kf hkf
  rw [show parseKeyFindings mock_doctor_response =
    [⟨"[MOCK] Elevated Creatinine", "Lab report indicates possible renal stress markers.",
      .high, "lab_report"⟩,
     ⟨"[MOCK] Hypertension History", "Patient history notes long-standing hypertension.",
      .medium, "patient_history"⟩,
     ⟨"[MOCK] Routine Follow-up Due", "Annual cardiology review overdue by 3 months.",
      .low, "prescription"⟩] from rfl] at hkf
  simp only [List.mem_cons, List.not_mem_nil, or_false] at hkf
  rcases hkf with rfl | rfl | rfl <;> rfl

/-- C2 witness: both fallbacks evaluated on a concrete brace-free output. -/
theorem c2_witness :
    parse_json_response (fun _ => none) "I am unable to process these records."
      mock_doctor_response = mock_doctor_response ∧
    parse_json_response (fun _ => none) "I am unable to process these records."
      mock_patient_response = mock_patient_response := by
  have h := c2_fallback_on_extraction_failure (fun _ => none)
    "I am unable to process these records." (Or.inl rfl)
  exact ⟨h.1, h.2.1⟩

/-- C1: evaluation at the failing input.  With the legacy tier unavailable,
the local model loaded, and NO scan image in the request, a model output
from which extraction fails makes `analyze_for_doctor` return the doctor
fallback payload without clearing its `scan_insights`; the route then
serves a 200 response whose `scan_insights` list is non-empty — the
no-image-in → no-scan-insights-out rule is not enforced on the local-model
tier. -/
theorem c1_local_tier_keeps_scan_insights :
    analyze_for_doctor true false true (fun _ => none) .urlError none
      "The model produced no JSON output." = some mock_doctor_response ∧
    jsonGet mock_doctor_response "scan_insights" =
      some (.arr [.obj [
        ("observation", .str "[MOCK] Scan received and processed."),
        ("region", .str "Unknown (mock mode)"),
        ("note", .str "Real scan analysis requires GPU and loaded MedGemma model.")]]) ∧
    ∃ resp,
      analyze_patient_records true false true (fun _ => none) .urlError
        (some "Adult patient with hypertension.") none none none
        "The model produced no JSON output." = .ok resp ∧
      resp.scan_insights ≠ [] := by
  refine ⟨rfl, rfl, ⟨⟨mockDoctorSummary,
    [⟨"[MOCK] Elevated Creatinine", "Lab report indicates possible renal stress markers.",
      .high, "lab_report"⟩,
     ⟨"[MOCK] Hypertension History", "Patient history notes long-standing hypertension.",
      .medium, "patient_history"⟩,
     ⟨"[MOCK] Routine Follow-up Due", "Annual cardiology review overdue by 3 months.",
      .low, "prescription"⟩],
    [⟨"[MOCK] Scan received and processed.", some "Unknown (mock mode)",
      "Real scan analysis requires GPU and loaded MedGemma model."⟩],
    ["[MOCK] Elevated Creatinine", "[MOCK] Hypertension History",
     "[MOCK] Routine Follow-up Due"],
    disclaimerText⟩, rfl, ?_⟩⟩
  intro h
  cases h

/-- C8 counterexample: a legacy payload whose data carries no summary but
whose top-level `response` field is non-empty gets that response text as
`patient_summary` — not the mock placeholder summary the claim names. -/
theorem c8_counterexample :
    (normalize_legacy_doctor_payload
        (.obj [("response", .str "Hello"), ("data", .obj [])])).bind
      (fun j => jsonGet j "patient_summary") = some (.str "Hello") ∧
    "Hello" ≠ mockDoctorSummary := by
  refine ⟨rfl, ?_⟩
  decide

/-- C8 (as amended): when the legacy data carries no usable (truthy)
summary, the remap substitutes the top-level `response` field if that is
truthy, and the mock placeholder summary only when the response is also
missing or falsy; in both cases the remap still returns a result rather
than failing. -/
theorem c8_summary_fallback_chain :
    ∀ (fields : List (String × Json)) (result : Json),
      normalize_legacy_doctor_payload (.obj fields) = some result →
      pyTruthy ((jsonGet (legacyData (.obj fields)) "summary").getD .null) = false →
      jsonGet result "patient_summary" =
        some (if pyTruthy ((jsonGet (.obj fields) "response").getD .null) then
            (jsonGet (.obj fields) "response").getD .null
          else .str mockDoctorSummary) := by
  intro fields result h hsum
  simp only [normalize_legacy_doctor_payload, bind, Option.bind_eq_some, pure,
    Option.some.injEq] at h
  obtain ⟨items, hitems, summary, hsummary, heq⟩ := h
  subst heq
  simp only [legacyDoctorSummary, hsum, Bool.false_eq_true, if_false,
    Option.some.injEq] at hsummary
  subst hsummary
  simp [jsonGet, List.lookup]

/-- C8 witness: with neither a data summary nor a response field, the mock
placeholder summary is substituted and the remap still succeeds. -/
theorem c8_witness :
    ∃ result, normalize_legacy_doctor_payload (.obj [("data", .obj [])]) = some result ∧
      jsonGet result "patient_summary" =
        some (if pyTruthy ((jsonGet (Json.obj [("data", Json.obj [])]) "response").getD .null)
          then (jsonGet (Json.obj [("data", Json.obj [])]) "response").getD .null
          else .str mockDoctorSummary) ∧
      jsonGet result "patient_summary" = some (.str mockDoctorSummary) :=
  ⟨_, rfl, c8_summary_fallback_chain [("data", .obj [])] _ rfl rfl, rfl⟩

theorem legacyPatientPieces_join_ne_empty (data : Json) (recItems : List Json)
    (h : legacyPatientPieces data recItems ≠ []) :
    pyJoin "\n\n" (legacyPatientPieces data recItems) ≠ "" := by
  unfold legacyPatientPieces at h ⊢
  by_cases hs : legacyPatientSummary data ≠ ""
  · rw [if_pos hs, List.singleton_append]
    exact pyJoin_ne_empty _ _ _ hs
  · rw [if_neg hs] at h ⊢
    by_cases hr : legacyRecommendations recItems ≠ []
    · rw [if_pos hr] at h ⊢
      rw [List.nil_append]
      apply pyJoin_ne_empty
      intro he
      rw [string_append_eq_empty_iff] at he
      exact absurd he.1 (by decide)
    · rw [if_neg hr] at h
      simp at h

theorem patientResultExplanation_ne_empty (data : Json) (recItems : List Json)
    (result : Json) (s : String)
    (hres : (if (legacyPatientPieces data recItems).isEmpty = true then
        some mock_patient_response
      else
        some (Json.obj [("simplified_explanation",
          Json.str (pyJoin "\n\n" (legacyPatientPieces data recItems)))])) = some result)
    (hs : jsonGet result "simplified_explanation" = some (.str s)) :
    s ≠ "" := by
  split at hres
  case isTrue hempty =>
    cases hres
    simp only [mock_patient_response, jsonGet, List.lookup] at hs
    simp only [show ("simplified_explanation" == "simplified_explanation") = true by decide,
      Option.some.injEq, Json.str.injEq] at hs
    subst hs
    decide
  case isFalse hempty =>
    cases hres
    simp only [jsonGet, List.lookup] at hs
    simp only [show ("simplified_explanation" == "simplified_explanation") = true by decide,
      Option.some.injEq, Json.str.injEq] at hs
    subst hs
    apply legacyPatientPieces_join_ne_empty
    intro hnil
    rw [hnil] at hempty
    exact hempty rfl

/-- C9 counterexample: with non-empty report text, a local-model output that
parses to a JSON object carrying `simplified_explanation` equal to the empty
string is served as-is — the route returns HTTP 200 with an EMPTY
`simplified_explanation`, because the fixed message is substituted only when
the key is absent, not when its value is empty. -/
theorem c9_counterexample :
    explain_report true false true loadsEmptyExplanation .urlError
      (some "Blood test results attached.") emptyExplanationRaw =
      .ok ⟨"", disclaimerText⟩ ∧
    (PatientExplainResponse.mk "" disclaimerText).simplified_explanation = "" :=
  ⟨rfl, rfl⟩

/-- C9 (as amended): patient-explain rejects an empty resolved report text
with HTTP 422; every 200 response carries the fixed disclaimer; the
`simplified_explanation` produced by the legacy remap is never the empty
string, the mock explanation is non-empty, and the fixed placeholder message
is substituted whenever the backend result lacks the key — but a parsed
local-model payload may carry an empty-string value, which the route returns
as-is (the non-empty guarantee does not extend to that tier). -/
theorem c9_patient_explain_behaviour :
    (∀ (enabled forceMock modelLoaded : Bool) loads outcome rawModelOutput,
      explain_report enabled forceMock modelLoaded loads outcome (some "") rawModelOutput =
        .clientError 422 ∧
      explain_report enabled forceMock modelLoaded loads outcome none rawModelOutput =
        .clientError 422) ∧
    (∀ (enabled forceMock modelLoaded : Bool) loads outcome reportText rawModelOutput resp,
      explain_report enabled forceMock modelLoaded loads outcome reportText rawModelOutput =
        .ok resp → resp.disclaimer = disclaimerText) ∧
    (∀ payload result s, normalize_legacy_patient_payload payload = some result →
      jsonGet result "simplified_explanation" = some (.str s) → s ≠ "") ∧
    mockPatientExplanation ≠ "" ∧
    (∀ (enabled forceMock modelLoaded : Bool) loads outcome reportText rawModelOutput res,
      resolveTextField reportText ≠ "" →
      explain_for_patient enabled forceMock modelLoaded loads outcome rawModelOutput =
        some res →
      jsonGet res "simplified_explanation" = none →
      explain_report enabled forceMock modelLoaded loads outcome reportText rawModelOutput =
        .ok ⟨unableToExplainMessage, disclaimerText⟩) := by
  refine ⟨?_, ?_, ?_, by decide, ?_⟩
  · intro enabled forceMock modelLoaded loads outcome rawModelOutput
    exact ⟨rfl, rfl⟩
  · intro enabled forceMock modelLoaded loads outcome reportText rawModelOutput resp h
    simp only [explain_report] at h
    split at h
    · cases h
    · split at h
      · cases h
      · split at h
        · cases h
          rfl
        · cases h
          rfl
        · cases h
  · intro payload result s h hs
    simp only [normalize_legacy_patient_payload] at h
    rcases hg : jsonGet (legacyData payload) "recommendations" with _ | v
    · rw [hg] at h
      exact patientResultExplanation_ne_empty (legacyData payload) [] result s h hs
    · rw [hg] at h
      have h' : (pyIterate v).bind (fun y =>
          if (legacyPatientPieces (legacyData payload) y).isEmpty = true then
            some mock_patient_response
          else some (Json.obj [("simplified_explanation",
            Json.str (pyJoin "\n\n" (legacyPatientPieces (legacyData payload) y)))])) =
          some result := h
      rw [Option.bind_eq_some] at h'
      obtain ⟨recItems, hrec, hres⟩ := h'
      exact patientResultExplanation_ne_empty (legacyData payload) recItems result s hres hs
  · intro enabled forceMock modelLoaded loads outcome reportText rawModelOutput res
      hres hserv hkey
    simp only [explain_report, if_neg hres, hserv, hkey]

/-- C9 witness: the amended behaviour on concrete inputs — empty text is
rejected with 422, a mock-tier 200 response carries the disclaimer, and a
legacy summary round-trips to a non-empty explanation. -/
theorem c9_witness :
    explain_report true true false (fun _ => none) .urlError (some "")
      "unused" = .clientError 422 ∧
    (∀ resp, explain_report true true false (fun _ => none) .urlError
      (some "Cholesterol slightly elevated.") "unused" = .ok resp →
      resp.disclaimer = disclaimerText) ∧
    ("All good." ≠ "" ∧ normalize_legacy_patient_payload
      (.obj [("data", .obj [("summary", .str "All good.")])]) =
      some (.obj [("simplified_explanation", .str "All good.")])) := by
  refine ⟨?_, ?_, ?_, rfl⟩
  · exact (c9_patient_explain_behaviour.1 true true false (fun _ => none) .urlError
      "unused").1
  · intro resp h
    exact c9_patient_explain_behaviour.2.1 true true false (fun _ => none) .urlError
      (some "Cholesterol slightly elevated.") "unused" resp h
  · exact c9_patient_explain_behaviour.2.2.1
      (.obj [("data", .obj [("summary", .str "All good.")])])
      (.obj [("simplified_explanation", .str "All good.")]) "All good." rfl rfl
